import Mathlib

/-!
Shallow embedding of the neural-particles gesture pipeline.

Sources embedded:
- src/app/lib/constants.ts           (GESTURE_CONSTANTS, TRACKING_CONSTANTS, SHAPE_LIST)
- src/app/lib/sharedState (unnamed/part_000)  (sharedState defaults)
- src/app/components/hand-tracking/HandController.tsx
    (calculateDistance, normalizePinchDistance, processResults)
- src/app/components/particles/ParticleSystem.tsx (calculateExpansion)
- src/app/components/ParticlePage.tsx (getNextShape)
- src/app/lib/shapeGenerators.ts     (generatePositions)

JavaScript numbers are modelled as rationals (ℚ); `Math.sqrt`, `Math.sin`,
`Math.cos`, `Math.acos`, `Math.PI` are transcendental, so they are taken as
explicit function parameters (an oracle), and theorems quantify over them or
assume only the algebraic facts the proof needs (e.g. sin² + cos² = 1).
A JavaScript TypeError from reading a property of `undefined` (out-of-range
landmark access) is modelled by an `errored` flag on the call outcome, with
the state as mutated up to the throw point, since `sharedState` writes that
happened before the throw persist.
-/

namespace NeuralParticles

/-- src/app/lib/constants.ts GESTURE_CONSTANTS.SWIPE_THRESHOLD = 0.06 -/
def SWIPE_THRESHOLD : ℚ := 6/100

/-- src/app/lib/constants.ts GESTURE_CONSTANTS.SWIPE_COOLDOWN = 800 (ms) -/
def SWIPE_COOLDOWN : ℤ := 800

/-- src/app/lib/constants.ts GESTURE_CONSTANTS.PINCH_MIN_DISTANCE = 0.02 -/
def PINCH_MIN_DISTANCE : ℚ := 2/100

/-- src/app/lib/constants.ts GESTURE_CONSTANTS.PINCH_SCALE_FACTOR = 7 -/
def PINCH_SCALE_FACTOR : ℚ := 7

/-- src/app/lib/constants.ts GESTURE_CONSTANTS.PINCH_MAX_VALUE = 1.5 -/
def PINCH_MAX_VALUE : ℚ := 3/2

/-- src/app/lib/constants.ts TRACKING_CONSTANTS.HAND_X_LERP = 0.1 -/
def HAND_X_LERP : ℚ := 1/10

/-- src/app/lib/constants.ts TRACKING_CONSTANTS.PINCH_LERP_ACTIVE = 0.2 -/
def PINCH_LERP_ACTIVE : ℚ := 1/5

/-- src/app/lib/constants.ts TRACKING_CONSTANTS.PINCH_LERP_INACTIVE = 0.05 -/
def PINCH_LERP_INACTIVE : ℚ := 1/20

/-- src/app/lib/constants.ts NormalizedLandmark: { x, y, z } -/
structure NormalizedLandmark where
  x : ℚ
  y : ℚ
  z : ℚ
deriving DecidableEq, Repr

/-- src/app/lib/constants.ts NormalizedLandmarkList -/
abbrev NormalizedLandmarkList := List NormalizedLandmark

/-- src/app/lib/constants.ts HandsResults: `multiHandLandmarks?` is an optional
array of landmark lists (`none` models the field being absent/undefined). -/
abbrev HandsResults := Option (List NormalizedLandmarkList)

/-- src/app/lib/constants.ts GestureDirection -/
inductive GestureDirection where
  | next
  | prev
deriving DecidableEq, Repr

/-- src/app/lib/constants.ts ShapeType -/
inductive ShapeType where
  | heart
  | sphere
  | flower
  | spiral
deriving DecidableEq, Repr

/-- src/app/lib/constants.ts SHAPE_LIST = ["heart", "sphere", "flower", "spiral"] -/
def SHAPE_LIST : List ShapeType :=
  [ShapeType.heart, ShapeType.sphere, ShapeType.flower, ShapeType.spiral]

/-- The mutable state touched by processResults of HandController: the shared
Signal Channel (src/app/lib/sharedState) plus the component refs `lastXRef`
and `lastSwipeTimeRef` (HandController.tsx lines 157-158). -/
structure ExtractorState where
  handDetected : Bool
  pinchDistance : ℚ
  handX : ℚ
  handY : ℚ
  lastX : Option ℚ
  lastSwipeTime : ℤ
deriving DecidableEq, Repr

/-- Default state: sharedState initial values (src/app/lib/sharedState:
handDetected=false, pinchDistance=1.0, handX=0.5, handY=0.5), lastXRef=null,
lastSwipeTimeRef=0. -/
def initState : ExtractorState :=
  { handDetected := false
    pinchDistance := 1
    handX := 1/2
    handY := 1/2
    lastX := none
    lastSwipeTime := 0 }

/-- HandController.tsx calculateDistance: Euclidean distance between two
landmarks (x,y only), with `Math.sqrt` passed as the oracle `sq`. -/
def calculateDistance (sq : ℚ → ℚ) (a b : NormalizedLandmark) : ℚ :=
  let dx := a.x - b.x
  let dy := a.y - b.y
  sq (dx * dx + dy * dy)

/-- HandController.tsx normalizePinchDistance:
clamp ((raw − PINCH_MIN_DISTANCE) × PINCH_SCALE_FACTOR) to [0, PINCH_MAX_VALUE]. -/
def normalizePinchDistance (rawDistance : ℚ) : ℚ :=
  let normalized := (rawDistance - PINCH_MIN_DISTANCE) * PINCH_SCALE_FACTOR
  max 0 (min PINCH_MAX_VALUE normalized)

/-- Result of one processResults call: the state after the call, the at most
one onGesture event emitted, and whether the call threw a TypeError
(undefined landmark property access). -/
structure Outcome where
  state : ExtractorState
  event : Option GestureDirection
  errored : Bool
deriving DecidableEq, Repr

/-- HandController.tsx lines 217-231: the swipe-detection block. Reads
`lastXRef`/`lastSwipeTimeRef` from the state; returns the emitted event and
the state with `lastSwipeTime` possibly reset to `now`. -/
def swipeCheck (currentX : ℚ) (now : ℤ) (s : ExtractorState) :
    Option GestureDirection × ExtractorState :=
  match s.lastX with
  | some lastX =>
    let deltaX := currentX - lastX
    let timeSinceLastSwipe := now - s.lastSwipeTime
    if timeSinceLastSwipe > SWIPE_COOLDOWN then
      if deltaX > SWIPE_THRESHOLD then
        (some GestureDirection.next, { s with lastSwipeTime := now })
      else if deltaX < -SWIPE_THRESHOLD then
        (some GestureDirection.prev, { s with lastSwipeTime := now })
      else (none, s)
    else (none, s)
  | none => (none, s)

/-- HandController.tsx processResults (lines 201-256), one call.
`sq` is the `Math.sqrt` oracle; `now` is the `Date.now()` value read during
the call. Mirrors the source order of effects:
if `!isRunning` return; if `multiHandLandmarks` is present and non-empty,
set handDetected := true, read wrist = landmarks[0] (a missing index 0 makes
`1 - wrist.x` throw), run the swipe block, set lastX := currentX, read
thumb = landmarks[4] and index = landmarks[8] (a missing one makes
calculateDistance throw, after the swipe block already ran), lerp
pinchDistance toward the normalized distance and handX toward currentX;
otherwise set handDetected := false, relax pinchDistance toward 1.0 and
clear lastX. -/
def processResults (sq : ℚ → ℚ) (results : HandsResults) (isRunning : Bool)
    (now : ℤ) (s : ExtractorState) : Outcome :=
  if isRunning = false then ⟨s, none, false⟩ else
  match results with
  | some (landmarks :: _) =>
    let s1 := { s with handDetected := true }
    match landmarks[0]? with
    | none => ⟨s1, none, true⟩
    | some wrist =>
      let currentX := 1 - wrist.x
      let es := swipeCheck currentX now s1
      let event := es.1
      let s3 := { es.2 with lastX := some currentX }
      match landmarks[4]?, landmarks[8]? with
      | some thumb, some idxTip =>
        let distance := calculateDistance sq thumb idxTip
        let normalizedDistance := normalizePinchDistance distance
        let s4 := { s3 with pinchDistance :=
          s3.pinchDistance + (normalizedDistance - s3.pinchDistance) * PINCH_LERP_ACTIVE }
        let s5 := { s4 with handX := s4.handX + (currentX - s4.handX) * HAND_X_LERP }
        ⟨s5, event, false⟩
      | _, _ => ⟨s3, event, true⟩
  | _ =>
    let s1 := { s with handDetected := false }
    let s2 := { s1 with pinchDistance :=
      s1.pinchDistance + (1 - s1.pinchDistance) * PINCH_LERP_INACTIVE }
    let s3 := { s2 with lastX := none }
    ⟨s3, none, false⟩

/-- Whether a HandsResults value takes the detected-hand branch of
processResults (`landmarksList && landmarksList.length > 0`). -/
def hasHand : HandsResults → Bool
  | some (_ :: _) => true
  | _ => false

/-- Inputs of one inference-cycle call: the MediaPipe results, the isRunning
flag and the `Date.now()` reading. -/
structure CallInput where
  results : HandsResults
  isRunning : Bool
  now : ℤ
deriving Repr

/-- Thread the extractor state through a sequence of processResults calls. -/
def runCalls (sq : ℚ → ℚ) : List CallInput → ExtractorState → ExtractorState
  | [], s => s
  | c :: rest, s => runCalls sq rest (processResults sq c.results c.isRunning c.now s).state

/-- The (Date.now reading, direction) of each onGesture event emitted over a
sequence of processResults calls, in order. -/
def traceEvents (sq : ℚ → ℚ) : List CallInput → ExtractorState → List (ℤ × GestureDirection)
  | [], _ => []
  | c :: rest, s =>
    let o := processResults sq c.results c.isRunning c.now s
    match o.event with
    | some d => (c.now, d) :: traceEvents sq rest o.state
    | none => traceEvents sq rest o.state

/-- ParticleSystem.tsx calculateExpansion (lines 41-50). -/
def calculateExpansion (pinchDistance : ℚ) : ℚ :=
  let expansion := 1/5 + pinchDistance * (4/5)
  if pinchDistance > 19/20 then 1 + (pinchDistance - 19/20) * 5 else expansion

/-- ParticlePage.tsx getNextShape (lines 55-70): cycle through SHAPE_LIST.
JavaScript `%` on the nonnegative operands that occur here agrees with `Int.emod`. -/
def getNextShape (current : ShapeType) (direction : GestureDirection) : ShapeType :=
  let currentIndex : ℤ := SHAPE_LIST.indexOf current
  let length : ℤ := SHAPE_LIST.length
  let newIndex : ℤ :=
    match direction with
    | GestureDirection.next => (currentIndex + 1) % length
    | GestureDirection.prev => (currentIndex - 1 + length) % length
  SHAPE_LIST.getD newIndex.toNat ShapeType.heart

/-- The `Math.sqrt` oracle used at concrete inputs where every evaluation is
at argument 0 (thumb = index tip), where Math.sqrt 0 = 0 exactly. -/
def sqrtAtZero : ℚ → ℚ := fun _ => 0

/-- Iterate processResults with no detected hand (the idle relaxation path). -/
def relaxIter (sq : ℚ → ℚ) : ℕ → ExtractorState → ExtractorState
  | 0, s => s
  | n + 1, s => relaxIter sq n (processResults sq none true 0 s).state

/-- The transcendental Math functions used by src/app/lib/shapeGenerators.ts
(Math.sin, Math.cos, Math.acos, Math.PI), as an oracle structure. -/
structure MathOps where
  sin : ℚ → ℚ
  cos : ℚ → ℚ
  acos : ℚ → ℚ
  pi : ℚ

/-- src/app/lib/shapeGenerators.ts: body of the per-particle loop of
generatePositions, producing the (x, y, z) triple for particle index `i`.
`rand` is the Math.random stream; for the shapes that draw two random
numbers per particle they are draws 2i and 2i+1 of the stream, matching the
sequential draw order of the source (spiral draws none). -/
def genPoint (m : MathOps) (rand : ℕ → ℚ) (count : ℕ) (ty : ShapeType)
    (i : ℕ) : ℚ × ℚ × ℚ :=
  match ty with
  | ShapeType.heart =>
    let t := rand (2 * i) * m.pi * 2
    let p := rand (2 * i + 1) * m.pi * 2
    let x := 16 * m.sin t ^ 3
    let y := 13 * m.cos t - 5 * m.cos (2 * t) - 2 * m.cos (3 * t) - m.cos (4 * t)
    let z := 4 * m.sin p * m.sin t
    (x * (3/10), y * (3/10) + 1, z * (3/10))
  | ShapeType.sphere =>
    let theta := rand (2 * i) * m.pi * 2
    let phi := m.acos (2 * rand (2 * i + 1) - 1)
    let r : ℚ := 6
    (r * m.sin phi * m.cos theta, r * m.sin phi * m.sin theta, r * m.cos phi)
  | ShapeType.flower =>
    let u := rand (2 * i) * m.pi * 4
    let v := rand (2 * i + 1) * m.pi
    let r := 5 * m.sin (2 * u)
    (r * m.cos u * m.sin v, r * m.sin u * m.sin v, 2 * m.cos v)
  | ShapeType.spiral =>
    let t := ((i : ℚ) / (count : ℚ)) * 20 * m.pi
    let r := ((i : ℚ) / (count : ℚ)) * 8
    (r * m.cos t, ((i : ℚ) / (count : ℚ) - 1/2) * 10, r * m.sin t)

/-- src/app/lib/shapeGenerators.ts generatePositions: one triple per
particle index 0 ≤ i < count (the flat Float32Array of length count × 3 in
the source is represented as the list of its count triples; the
sphere-branch writes and the final `if (type !== "sphere")` guard net to
the same per-index assignment). -/
def generatePositions (m : MathOps) (rand : ℕ → ℚ) (ty : ShapeType)
    (count : ℕ) : List (ℚ × ℚ × ℚ) :=
  (List.range count).map (genPoint m rand count ty)

/-- Landmarks of a results value all have x in the normalized range [0, 1]
(what the MediaPipe oracle contract promises, spec section 6). -/
def WristXNormalized (r : HandsResults) : Prop :=
  ∀ hand ∈ r.getD [], ∀ lm ∈ hand, 0 ≤ lm.x ∧ lm.x ≤ 1

section Lemmas

/-- swipeCheck only ever changes the lastSwipeTime component. -/
theorem swipeCheck_preserves (c : ℚ) (n : ℤ) (s : ExtractorState) :
    (swipeCheck c n s).2.handDetected = s.handDetected ∧
    (swipeCheck c n s).2.pinchDistance = s.pinchDistance ∧
    (swipeCheck c n s).2.handX = s.handX ∧
    (swipeCheck c n s).2.handY = s.handY ∧
    (swipeCheck c n s).2.lastX = s.lastX := by
  rcases hlx : s.lastX with _ | lx <;> simp only [swipeCheck, hlx]
  · simp [hlx]
  · split_ifs <;> simp [hlx]

/-- If swipeCheck fires an event, lastSwipeTime is reset to `n` and the
cooldown had elapsed. -/
theorem swipeCheck_fire (c : ℚ) (n : ℤ) (s : ExtractorState) (d : GestureDirection)
    (h : (swipeCheck c n s).1 = some d) :
    (swipeCheck c n s).2.lastSwipeTime = n ∧ SWIPE_COOLDOWN < n - s.lastSwipeTime := by
  rcases hlx : s.lastX with _ | lx <;> simp only [swipeCheck, hlx] at h ⊢
  · simp at h
  · split_ifs at h ⊢ with h1 h2 h3 <;> simp_all [SWIPE_COOLDOWN]

/-- If swipeCheck fires no event, lastSwipeTime is unchanged. -/
theorem swipeCheck_nofire (c : ℚ) (n : ℤ) (s : ExtractorState)
    (h : (swipeCheck c n s).1 = none) :
    (swipeCheck c n s).2.lastSwipeTime = s.lastSwipeTime := by
  rcases hlx : s.lastX with _ | lx <;> simp only [swipeCheck, hlx] at h ⊢
  all_goals split_ifs at h ⊢ <;> simp_all

/-- With a previous x present and the cooldown elapsed, the swipeCheck event is
determined by deltaX against the threshold. -/
theorem swipeCheck_event_iff (c : ℚ) (n : ℤ) (s : ExtractorState) (lx : ℚ)
    (hlx : s.lastX = some lx) (hcool : SWIPE_COOLDOWN < n - s.lastSwipeTime) :
    ((swipeCheck c n s).1 = some GestureDirection.next ↔ SWIPE_THRESHOLD < c - lx) ∧
    ((swipeCheck c n s).1 = some GestureDirection.prev ↔ c - lx < -SWIPE_THRESHOLD) := by
  simp only [swipeCheck, hlx]
  rw [if_pos hcool]
  constructor <;> split_ifs with h1 h2 <;> simp_all [SWIPE_THRESHOLD] <;> linarith

/-- With no previous x, swipeCheck does nothing. -/
theorem swipeCheck_lastX_none (c : ℚ) (n : ℤ) (s : ExtractorState)
    (hlx : s.lastX = none) : swipeCheck c n s = (none, s) := by
  simp only [swipeCheck, hlx]

/-- processResults is a no-op when isRunning is false. -/
theorem processResults_notRunning (sq : ℚ → ℚ) (r : HandsResults) (now : ℤ)
    (s : ExtractorState) : processResults sq r false now s = ⟨s, none, false⟩ := rfl

/-- The no-detected-hand branch of processResults: handDetected cleared,
pinchDistance relaxed toward 1.0 by PINCH_LERP_INACTIVE, lastX cleared;
nothing else changes, no event, no error. -/
theorem processResults_noHand (sq : ℚ → ℚ) (r : HandsResults) (now : ℤ)
    (s : ExtractorState) (h : hasHand r = false) :
    processResults sq r true now s =
      ⟨{ s with handDetected := false,
                pinchDistance := s.pinchDistance + (1 - s.pinchDistance) * PINCH_LERP_INACTIVE,
                lastX := none }, none, false⟩ := by
  rcases r with _ | (_ | ⟨l, rest⟩)
  · simp [processResults]
  · simp [processResults]
  · simp [hasHand] at h

/-- Detected-hand branch with an empty landmark list: reading `wrist.x`
throws after handDetected was already set. -/
theorem processResults_crash_wrist (sq : ℚ → ℚ) (l : NormalizedLandmarkList)
    (rest : List NormalizedLandmarkList) (now : ℤ) (s : ExtractorState)
    (h0 : l[0]? = none) :
    processResults sq (some (l :: rest)) true now s =
      ⟨{ s with handDetected := true }, none, true⟩ := by
  simp [processResults, h0]

/-- Detected-hand branch with a wrist landmark: the emitted event is exactly
the swipe-check result, whether or not the thumb/index accesses then throw. -/
theorem processResults_detected_event (sq : ℚ → ℚ) (l : NormalizedLandmarkList)
    (rest : List NormalizedLandmarkList) (now : ℤ) (s : ExtractorState)
    (wrist : NormalizedLandmark) (h0 : l[0]? = some wrist) :
    (processResults sq (some (l :: rest)) true now s).event =
      (swipeCheck (1 - wrist.x) now { s with handDetected := true }).1 := by
  simp only [processResults, h0]
  rcases h4x : l[4]? with _ | thumb <;> rcases h8x : l[8]? with _ | idxTip <;> simp

/-- Detected-hand branch with all three landmarks present: the full update. -/
theorem processResults_full (sq : ℚ → ℚ) (l : NormalizedLandmarkList)
    (rest : List NormalizedLandmarkList) (now : ℤ) (s : ExtractorState)
    (wrist thumb idxTip : NormalizedLandmark)
    (h0 : l[0]? = some wrist) (h4 : l[4]? = some thumb)
    (h8 : l[8]? = some idxTip) :
    processResults sq (some (l :: rest)) true now s =
      ⟨{ (swipeCheck (1 - wrist.x) now { s with handDetected := true }).2 with
          lastX := some (1 - wrist.x),
          pinchDistance :=
            (swipeCheck (1 - wrist.x) now { s with handDetected := true }).2.pinchDistance +
              (normalizePinchDistance (calculateDistance sq thumb idxTip) -
                (swipeCheck (1 - wrist.x) now { s with handDetected := true }).2.pinchDistance) *
                PINCH_LERP_ACTIVE,
          handX :=
            (swipeCheck (1 - wrist.x) now { s with handDetected := true }).2.handX +
              ((1 - wrist.x) -
                (swipeCheck (1 - wrist.x) now { s with handDetected := true }).2.handX) *
                HAND_X_LERP },
        (swipeCheck (1 - wrist.x) now { s with handDetected := true }).1, false⟩ := by
  simp [processResults, h0, h4, h8]

/-- Detected-hand branch where the thumb or index access throws: the swipe
block and the lastX write already happened, pinchDistance and handX did not. -/
theorem processResults_crash_tips (sq : ℚ → ℚ) (l : NormalizedLandmarkList)
    (rest : List NormalizedLandmarkList) (now : ℤ) (s : ExtractorState)
    (wrist : NormalizedLandmark) (h0 : l[0]? = some wrist)
    (h48 : l[4]? = none ∨ l[8]? = none) :
    processResults sq (some (l :: rest)) true now s =
      ⟨{ (swipeCheck (1 - wrist.x) now { s with handDetected := true }).2 with
          lastX := some (1 - wrist.x) },
        (swipeCheck (1 - wrist.x) now { s with handDetected := true }).1, true⟩ := by
  simp only [processResults, h0]
  rcases h48 with h4 | h8
  · rw [h4]
    rcases h8x : l[8]? with _ | idxTip <;> simp
  · rw [h8]
    rcases h4x : l[4]? with _ | thumb <;> simp

/-- normalizePinchDistance always lands in [0, PINCH_MAX_VALUE]. -/
theorem normalizePinchDistance_mem (r : ℚ) :
    0 ≤ normalizePinchDistance r ∧ normalizePinchDistance r ≤ PINCH_MAX_VALUE := by
  unfold normalizePinchDistance PINCH_MAX_VALUE
  constructor
  · exact le_max_left 0 _
  · exact max_le (by norm_num) (min_le_left _ _)

/-- No processResults call ever changes handY. -/
theorem handY_step (sq : ℚ → ℚ) (results : HandsResults) (b : Bool) (now : ℤ)
    (s : ExtractorState) :
    (processResults sq results b now s).state.handY = s.handY := by
  cases b with
  | false => rw [processResults_notRunning]
  | true =>
    rcases results with _ | (_ | ⟨l, rest⟩)
    · rw [processResults_noHand sq none now s rfl]
    · rw [processResults_noHand sq (some []) now s rfl]
    · rcases h0 : l[0]? with _ | wrist
      · rw [processResults_crash_wrist _ _ _ _ _ h0]
      · rcases h4 : l[4]? with _ | thumb
        · rw [processResults_crash_tips _ _ _ _ _ _ h0 (Or.inl h4)]
          exact (swipeCheck_preserves _ _ _).2.2.2.1
        · rcases h8 : l[8]? with _ | idxTip
          · rw [processResults_crash_tips _ _ _ _ _ _ h0 (Or.inr h8)]
            exact (swipeCheck_preserves _ _ _).2.2.2.1
          · rw [processResults_full _ _ _ _ _ _ _ _ h0 h4 h8]
            exact (swipeCheck_preserves _ _ _).2.2.2.1

/-- handY is invariant under any call sequence. -/
theorem runCalls_handY (sq : ℚ → ℚ) :
    ∀ (inputs : List CallInput) (s : ExtractorState),
      (runCalls sq inputs s).handY = s.handY := by
  intro inputs
  induction inputs with
  | nil => intro s; rfl
  | cons c rest ih =>
    intro s
    rw [runCalls, ih, handY_step]

/-- One call keeps pinchDistance in [0, PINCH_MAX_VALUE]. -/
theorem pinch_step_bounds (sq : ℚ → ℚ) (results : HandsResults) (b : Bool)
    (now : ℤ) (s : ExtractorState)
    (hp0 : 0 ≤ s.pinchDistance) (hp1 : s.pinchDistance ≤ PINCH_MAX_VALUE) :
    0 ≤ (processResults sq results b now s).state.pinchDistance ∧
    (processResults sq results b now s).state.pinchDistance ≤ PINCH_MAX_VALUE := by
  rw [PINCH_MAX_VALUE] at hp1 ⊢
  cases b with
  | false => rw [processResults_notRunning]; exact ⟨hp0, hp1⟩
  | true =>
    rcases results with _ | (_ | ⟨l, rest⟩)
    · rw [processResults_noHand sq none now s rfl]
      dsimp only
      rw [PINCH_LERP_INACTIVE]
      constructor <;> linarith
    · rw [processResults_noHand sq (some []) now s rfl]
      dsimp only
      rw [PINCH_LERP_INACTIVE]
      constructor <;> linarith
    · rcases h0 : l[0]? with _ | wrist
      · rw [processResults_crash_wrist _ _ _ _ _ h0]; exact ⟨hp0, hp1⟩
      · rcases h4 : l[4]? with _ | thumb
        · rw [processResults_crash_tips _ _ _ _ _ _ h0 (Or.inl h4)]
          dsimp only
          rw [(swipeCheck_preserves _ _ _).2.1]
          exact ⟨hp0, hp1⟩
        · rcases h8 : l[8]? with _ | idxTip
          · rw [processResults_crash_tips _ _ _ _ _ _ h0 (Or.inr h8)]
            dsimp only
            rw [(swipeCheck_preserves _ _ _).2.1]
            exact ⟨hp0, hp1⟩
          · rw [processResults_full _ _ _ _ _ _ _ _ h0 h4 h8]
            dsimp only
            rw [(swipeCheck_preserves _ _ _).2.1]
            have hnd := normalizePinchDistance_mem (calculateDistance sq thumb idxTip)
            rw [PINCH_MAX_VALUE] at hnd
            rw [PINCH_LERP_ACTIVE]
            constructor <;> linarith [hnd.1, hnd.2]

/-- One call keeps handX in [0, 1], provided the landmarks of the sample are in
normalized range. -/
theorem handX_step_bounds (sq : ℚ → ℚ) (results : HandsResults) (b : Bool)
    (now : ℤ) (s : ExtractorState)
    (hx0 : 0 ≤ s.handX) (hx1 : s.handX ≤ 1) (hw : WristXNormalized results) :
    0 ≤ (processResults sq results b now s).state.handX ∧
    (processResults sq results b now s).state.handX ≤ 1 := by
  cases b with
  | false => rw [processResults_notRunning]; exact ⟨hx0, hx1⟩
  | true =>
    rcases results with _ | (_ | ⟨l, rest⟩)
    · rw [processResults_noHand sq none now s rfl]; exact ⟨hx0, hx1⟩
    · rw [processResults_noHand sq (some []) now s rfl]; exact ⟨hx0, hx1⟩
    · rcases h0 : l[0]? with _ | wrist
      · rw [processResults_crash_wrist _ _ _ _ _ h0]; exact ⟨hx0, hx1⟩
      · rcases h4 : l[4]? with _ | thumb
        · rw [processResults_crash_tips _ _ _ _ _ _ h0 (Or.inl h4)]
          dsimp only
          rw [(swipeCheck_preserves _ _ _).2.2.1]
          exact ⟨hx0, hx1⟩
        · rcases h8 : l[8]? with _ | idxTip
          · rw [processResults_crash_tips _ _ _ _ _ _ h0 (Or.inr h8)]
            dsimp only
            rw [(swipeCheck_preserves _ _ _).2.2.1]
            exact ⟨hx0, hx1⟩
          · rw [processResults_full _ _ _ _ _ _ _ _ h0 h4 h8]
            dsimp only
            rw [(swipeCheck_preserves _ _ _).2.2.1]
            have hwx : 0 ≤ wrist.x ∧ wrist.x ≤ 1 := by
              refine hw l (by simp) wrist ?_
              exact List.getElem?_mem h0
            rw [HAND_X_LERP]
            constructor <;> linarith [hwx.1, hwx.2]

/-- pinchDistance stays in [0, PINCH_MAX_VALUE] across any call sequence. -/
theorem runCalls_pinch_bounds (sq : ℚ → ℚ) :
    ∀ (inputs : List CallInput) (s : ExtractorState),
      0 ≤ s.pinchDistance → s.pinchDistance ≤ PINCH_MAX_VALUE →
      0 ≤ (runCalls sq inputs s).pinchDistance ∧
      (runCalls sq inputs s).pinchDistance ≤ PINCH_MAX_VALUE := by
  intro inputs
  induction inputs with
  | nil => intro s h0 h1; exact ⟨h0, h1⟩
  | cons c rest ih =>
    intro s h0 h1
    rw [runCalls]
    have hstep := pinch_step_bounds sq c.results c.isRunning c.now s h0 h1
    exact ih _ hstep.1 hstep.2

/-- handX stays in [0, 1] across any call sequence of normalized samples. -/
theorem runCalls_handX_bounds (sq : ℚ → ℚ) :
    ∀ (inputs : List CallInput) (s : ExtractorState),
      0 ≤ s.handX → s.handX ≤ 1 →
      (∀ c ∈ inputs, WristXNormalized c.results) →
      0 ≤ (runCalls sq inputs s).handX ∧ (runCalls sq inputs s).handX ≤ 1 := by
  intro inputs
  induction inputs with
  | nil => intro s h0 h1 _; exact ⟨h0, h1⟩
  | cons c rest ih =>
    intro s h0 h1 hw
    rw [runCalls]
    have hstep := handX_step_bounds sq c.results c.isRunning c.now s h0 h1
      (hw c (List.mem_cons_self c rest))
    exact ih _ hstep.1 hstep.2 (fun x hx => hw x (List.mem_cons_of_mem c hx))

end Lemmas

/-- C1 counterexample: with the adversarial wrist x = −10 (a single
otherwise well-formed 9-landmark sample), one processResults call from the
default state drives handX to 1.55, outside [0, 1]. (Every Math.sqrt call in
this run is at argument 0, where Math.sqrt 0 = 0 = sqrtAtZero 0.) -/
theorem c1_adversarial_escape :
    (processResults sqrtAtZero (some [List.replicate 9 ⟨-10, 0, 0⟩]) true 0
        initState).state.handX = 31/20 ∧
    ¬((31 : ℚ)/20 ≤ 1) := by
  constructor
  · norm_num [processResults, swipeCheck, calculateDistance, normalizePinchDistance,
      initState, sqrtAtZero, List.replicate, PINCH_MIN_DISTANCE, PINCH_SCALE_FACTOR,
      PINCH_MAX_VALUE, HAND_X_LERP, PINCH_LERP_ACTIVE]
  · norm_num

/-- C1 (amended): from the default state, for arbitrary (including
adversarial) landmark inputs, pinchOpenness always stays within
[0, PINCH_MAX_VALUE] = [0, 1.5]; handX always stays within [0, 1] provided
every landmark x coordinate is in the normalized range [0, 1] (as the
landmark oracle promises), but not for arbitrary wrist x (see the
counterexample). -/
theorem c1_bounded_signals :
    ∀ (sq : ℚ → ℚ) (inputs : List CallInput),
      (0 ≤ (runCalls sq inputs initState).pinchDistance ∧
        (runCalls sq inputs initState).pinchDistance ≤ PINCH_MAX_VALUE) ∧
      ((∀ c ∈ inputs, WristXNormalized c.results) →
        0 ≤ (runCalls sq inputs initState).handX ∧
        (runCalls sq inputs initState).handX ≤ 1) := by
  intro sq inputs
  constructor
  · exact runCalls_pinch_bounds sq inputs initState (by norm_num [initState])
      (by rw [PINCH_MAX_VALUE]; norm_num [initState])
  · intro hw
    exact runCalls_handX_bounds sq inputs initState (by norm_num [initState])
      (by norm_num [initState]) hw

/-- Witness for C1 (amended): one normalized sample. -/
theorem c1_bounded_signals_witness :
    (0 ≤ (runCalls sqrtAtZero [⟨some [List.replicate 9 ⟨1/2, 0, 0⟩], true, 0⟩]
        initState).pinchDistance ∧
      (runCalls sqrtAtZero [⟨some [List.replicate 9 ⟨1/2, 0, 0⟩], true, 0⟩]
        initState).pinchDistance ≤ PINCH_MAX_VALUE) ∧
    (0 ≤ (runCalls sqrtAtZero [⟨some [List.replicate 9 ⟨1/2, 0, 0⟩], true, 0⟩]
        initState).handX ∧
      (runCalls sqrtAtZero [⟨some [List.replicate 9 ⟨1/2, 0, 0⟩], true, 0⟩]
        initState).handX ≤ 1) :=
  ⟨(c1_bounded_signals sqrtAtZero _).1,
    (c1_bounded_signals sqrtAtZero _).2
      (by simp [WristXNormalized, List.mem_replicate]; norm_num)⟩

/-- C8: a processResults call with no detected hand leaves handX (and handY)
exactly unchanged; of the Signal Channel fields it writes only handDetected
(to false) and pinchOpenness (relaxed toward 1.0); it emits no event and
never errors. -/
theorem c8_noHand_frame :
    ∀ (sq : ℚ → ℚ) (r : HandsResults) (now : ℤ) (s : ExtractorState),
      hasHand r = false →
      (processResults sq r true now s).state.handX = s.handX ∧
      (processResults sq r true now s).state.handY = s.handY ∧
      (processResults sq r true now s).state.handDetected = false ∧
      (processResults sq r true now s).state.pinchDistance =
        s.pinchDistance + (1 - s.pinchDistance) * PINCH_LERP_INACTIVE ∧
      (processResults sq r true now s).event = none ∧
      (processResults sq r true now s).errored = false := by
  intro sq r now s h
  rw [processResults_noHand sq r now s h]
  exact ⟨rfl, rfl, rfl, rfl, rfl, rfl⟩

/-- Witness for C8, at the default state with an absent multiHandLandmarks. -/
theorem c8_noHand_frame_witness :
    (processResults sqrtAtZero none true 0 initState).state.handX = initState.handX ∧
    (processResults sqrtAtZero none true 0 initState).state.handY = initState.handY ∧
    (processResults sqrtAtZero none true 0 initState).state.handDetected = false ∧
    (processResults sqrtAtZero none true 0 initState).state.pinchDistance =
      initState.pinchDistance + (1 - initState.pinchDistance) * PINCH_LERP_INACTIVE ∧
    (processResults sqrtAtZero none true 0 initState).event = none ∧
    (processResults sqrtAtZero none true 0 initState).errored = false :=
  c8_noHand_frame sqrtAtZero none 0 initState rfl

/-- C9: no processResults call, with or without a detected hand, ever writes
handY: it is left exactly unchanged by every call, so from the default state
it keeps its initial value 0.5 for the whole session. -/
theorem c9_handY_frozen :
    (∀ (sq : ℚ → ℚ) (results : HandsResults) (isRunning : Bool) (now : ℤ)
        (s : ExtractorState),
      (processResults sq results isRunning now s).state.handY = s.handY) ∧
    (∀ (sq : ℚ → ℚ) (inputs : List CallInput),
      (runCalls sq inputs initState).handY = 1/2) := by
  refine ⟨handY_step, ?_⟩
  intro sq inputs
  rw [runCalls_handY]
  norm_num [initState]

/-- C3 counterexample: the two expansion formulas do NOT agree at
pinchOpenness = 0.95. The sub-threshold branch (which calculateExpansion
takes at exactly 0.95, since the test is strict `>`) yields 24/25 = 0.96,
while the above-threshold formula yields 1.0 there. -/
theorem c3_formulas_disagree_at_threshold :
    calculateExpansion (19/20) = 24/25 ∧
    (1 : ℚ) + ((19 : ℚ)/20 - 19/20) * 5 = 1 ∧
    ¬((1/5 : ℚ) + (19/20) * (4/5) = 1 + ((19 : ℚ)/20 - 19/20) * 5) := by
  refine ⟨?_, by norm_num, by norm_num⟩
  unfold calculateExpansion
  norm_num

/-- C3 (amended): calculateExpansion is discontinuous in VALUE at the 0.95
threshold, not only in rate of change: it equals the sub-threshold formula
(value 24/25 = 0.96 at 0.95) for pinchOpenness ≤ 0.95, and for every
pinchOpenness > 0.95 it equals the accelerated formula, whose value is
strictly above 1 — a jump of at least 1/25 = 0.04. -/
theorem c3_value_jump_at_threshold :
    calculateExpansion (19/20) = 24/25 ∧
    (∀ p : ℚ, p ≤ 19/20 → calculateExpansion p = 1/5 + p * (4/5)) ∧
    (∀ p : ℚ, 19/20 < p → calculateExpansion p = 1 + (p - 19/20) * 5 ∧
      1 < calculateExpansion p) := by
  refine ⟨?_, ?_, ?_⟩
  · unfold calculateExpansion; norm_num
  · intro p hp
    unfold calculateExpansion
    rw [if_neg (by linarith)]
  · intro p hp
    unfold calculateExpansion
    rw [if_pos hp]
    exact ⟨rfl, by nlinarith⟩

/-- Witness for C3 (amended), at pinchOpenness = 1. -/
theorem c3_value_jump_at_threshold_witness :
    calculateExpansion 1 = 1 + ((1 : ℚ) - 19/20) * 5 ∧ 1 < calculateExpansion 1 :=
  c3_value_jump_at_threshold.2.2 1 (by norm_num)

/-- C10: shape navigation cycles through the four-element SHAPE_LIST:
getNextShape always returns a list member, a "next" followed by a "prev"
is the identity, "next" from the last element wraps to the first, and
"prev" from the first wraps to the last. -/
theorem c10_shape_cycle :
    (∀ (s : ShapeType) (d : GestureDirection), getNextShape s d ∈ SHAPE_LIST) ∧
    (∀ s : ShapeType,
      getNextShape (getNextShape s GestureDirection.next) GestureDirection.prev = s) ∧
    getNextShape ShapeType.spiral GestureDirection.next = ShapeType.heart ∧
    getNextShape ShapeType.heart GestureDirection.prev = ShapeType.spiral := by
  refine ⟨?_, ?_, by decide, by decide⟩
  · intro s d
    cases s <;> cases d <;> decide
  · intro s
    cases s <;> decide

/-- C5: on a detected-hand call with a previous-cycle lastX present and the
cooldown elapsed, "next" fires iff deltaX = currentX − lastX exceeds
SWIPE_THRESHOLD, "prev" fires iff deltaX is below −SWIPE_THRESHOLD, no event
fires otherwise; with lastX absent no event fires; and a call with no
detected hand resets lastX to none. -/
theorem c5_swipe_direction :
    ∀ (sq : ℚ → ℚ) (l : NormalizedLandmarkList) (rest : List NormalizedLandmarkList)
      (now : ℤ) (s : ExtractorState) (wrist : NormalizedLandmark) (lx : ℚ),
      l[0]? = some wrist →
      s.lastX = some lx →
      SWIPE_COOLDOWN < now - s.lastSwipeTime →
      (((processResults sq (some (l :: rest)) true now s).event =
            some GestureDirection.next ↔ SWIPE_THRESHOLD < (1 - wrist.x) - lx) ∧
        ((processResults sq (some (l :: rest)) true now s).event =
            some GestureDirection.prev ↔ (1 - wrist.x) - lx < -SWIPE_THRESHOLD) ∧
        ((processResults sq (some (l :: rest)) true now s).event = none ↔
          ¬(SWIPE_THRESHOLD < (1 - wrist.x) - lx) ∧
            ¬((1 - wrist.x) - lx < -SWIPE_THRESHOLD))) ∧
      (∀ s2 : ExtractorState, s2.lastX = none →
        (processResults sq (some (l :: rest)) true now s2).event = none) ∧
      (∀ r : HandsResults, hasHand r = false →
        (processResults sq r true now s).state.lastX = none) := by
  intro sq l rest now s wrist lx h0 hlx hcool
  have hev := processResults_detected_event sq l rest now s wrist h0
  have hlx1 : ({ s with handDetected := true } : ExtractorState).lastX = some lx := hlx
  have hcool1 : SWIPE_COOLDOWN <
      now - ({ s with handDetected := true } : ExtractorState).lastSwipeTime := hcool
  have hiff := swipeCheck_event_iff (1 - wrist.x) now
    { s with handDetected := true } lx hlx1 hcool1
  refine ⟨⟨?_, ?_, ?_⟩, ?_, ?_⟩
  · rw [hev]; exact hiff.1
  · rw [hev]; exact hiff.2
  · rw [hev]
    have h1 := hiff.1
    have h2 := hiff.2
    rcases hv : (swipeCheck (1 - wrist.x) now { s with handDetected := true }).1
      with _ | d
    · rw [hv] at h1 h2
      simp only [reduceCtorEq, false_iff] at h1 h2
      simp [h1, h2]
    · rw [hv] at h1 h2
      cases d
      · simp only [Option.some.injEq] at h1
        simp only [true_iff] at h1
        simp [h1]
      · simp only [Option.some.injEq, true_iff] at h2
        constructor
        · intro h
          simp at h
        · intro h
          exact (h.2 h2).elim
  · intro s2 hnone
    rw [processResults_detected_event sq l rest now s2 wrist h0]
    rw [swipeCheck_lastX_none (1 - wrist.x) now { s2 with handDetected := true } hnone]
  · intro r hr
    rw [processResults_noHand sq r now s hr]

/-- Witness for C5: wrist x moves from 0.5 to 0.4 (inverted: 0.5 to 0.6,
deltaX = 0.1 > 0.06) with the cooldown elapsed. -/
theorem c5_swipe_direction_witness :
    (((processResults sqrtAtZero (some [List.replicate 9 ⟨2/5, 0, 0⟩]) true 1000
          { initState with lastX := some (1/2) }).event =
            some GestureDirection.next ↔
        SWIPE_THRESHOLD < (1 - (2/5 : ℚ)) - 1/2) ∧
      ((processResults sqrtAtZero (some [List.replicate 9 ⟨2/5, 0, 0⟩]) true 1000
          { initState with lastX := some (1/2) }).event =
            some GestureDirection.prev ↔
        (1 - (2/5 : ℚ)) - 1/2 < -SWIPE_THRESHOLD) ∧
      ((processResults sqrtAtZero (some [List.replicate 9 ⟨2/5, 0, 0⟩]) true 1000
          { initState with lastX := some (1/2) }).event = none ↔
        ¬(SWIPE_THRESHOLD < (1 - (2/5 : ℚ)) - 1/2) ∧
          ¬((1 - (2/5 : ℚ)) - 1/2 < -SWIPE_THRESHOLD))) ∧
    (∀ s2 : ExtractorState, s2.lastX = none →
      (processResults sqrtAtZero (some [List.replicate 9 ⟨2/5, 0, 0⟩]) true 1000
        s2).event = none) ∧
    (∀ r : HandsResults, hasHand r = false →
      (processResults sqrtAtZero r true 1000
        { initState with lastX := some (1/2) }).state.lastX = none) :=
  c5_swipe_direction sqrtAtZero (List.replicate 9 ⟨2/5, 0, 0⟩) [] 1000
    { initState with lastX := some (1/2) } ⟨2/5, 0, 0⟩ (1/2) rfl rfl
    (by norm_num [SWIPE_COOLDOWN, initState])

/-- C2 counterexample: a detected-hand result whose landmark list has a
single landmark (fewer than 9) does NOT behave like the no-hand case: the
call errors (undefined landmark access) with handDetected left true, while
the genuine no-hand call does not error and sets handDetected false. -/
theorem c2_malformed_sample_errors :
    (processResults sqrtAtZero (some [[⟨0, 0, 0⟩]]) true 0 initState).errored = true ∧
    (processResults sqrtAtZero none true 0 initState).errored = false ∧
    (processResults sqrtAtZero (some [[⟨0, 0, 0⟩]]) true 0
        initState).state.handDetected = true ∧
    (processResults sqrtAtZero none true 0 initState).state.handDetected = false := by
  exact ⟨rfl, rfl, rfl, rfl⟩

/-- C2 (amended): an empty sample (multiHandLandmarks absent or an empty
list) is treated identically to "no hand detected" — safe-default path, no
event, no error; but a detected-hand result whose landmark list has fewer
than 9 landmarks makes the call throw (the wrist/thumb/index access hits a
missing element) instead of degrading to the safe-default path. -/
theorem c2_amended_failure_semantics :
    ∀ (sq : ℚ → ℚ) (now : ℤ) (s : ExtractorState),
      (∀ r : HandsResults, hasHand r = false →
        processResults sq r true now s =
          ⟨{ s with handDetected := false,
                    pinchDistance :=
                      s.pinchDistance + (1 - s.pinchDistance) * PINCH_LERP_INACTIVE,
                    lastX := none }, none, false⟩) ∧
      (∀ (l : NormalizedLandmarkList) (rest : List NormalizedLandmarkList),
        l.length < 9 →
        (processResults sq (some (l :: rest)) true now s).errored = true) := by
  intro sq now s
  refine ⟨fun r hr => processResults_noHand sq r now s hr, ?_⟩
  intro l rest hlen
  have h8 : l[8]? = none := List.getElem?_eq_none (by omega)
  rcases h0 : l[0]? with _ | wrist
  · rw [processResults_crash_wrist _ _ _ _ _ h0]
  · rw [processResults_crash_tips _ _ _ _ _ _ h0 (Or.inr h8)]

/-- Witness for C2 (amended): the absent-results call from the default state
and a one-landmark malformed sample. -/
theorem c2_amended_failure_semantics_witness :
    processResults sqrtAtZero none true 0 initState =
      ⟨{ initState with
          handDetected := false,
          pinchDistance :=
            initState.pinchDistance +
              (1 - initState.pinchDistance) * PINCH_LERP_INACTIVE,
          lastX := none }, none, false⟩ ∧
    (processResults sqrtAtZero (some [[⟨0, 0, 0⟩]]) true 0 initState).errored = true :=
  ⟨(c2_amended_failure_semantics sqrtAtZero 0 initState).1 none rfl,
    (c2_amended_failure_semantics sqrtAtZero 0 initState).2 [⟨0, 0, 0⟩] []
      (by norm_num)⟩

/-- In the detected branch with a wrist present, the lastSwipeTime of the
state after the call is that of the swipe check, in every sub-branch. -/
theorem processResults_detected_lastSwipeTime (sq : ℚ → ℚ)
    (l : NormalizedLandmarkList) (rest : List NormalizedLandmarkList) (now : ℤ)
    (s : ExtractorState) (wrist : NormalizedLandmark) (h0 : l[0]? = some wrist) :
    (processResults sq (some (l :: rest)) true now s).state.lastSwipeTime =
      (swipeCheck (1 - wrist.x) now { s with handDetected := true }).2.lastSwipeTime := by
  simp only [processResults, h0]
  rcases h4x : l[4]? with _ | thumb <;> rcases h8x : l[8]? with _ | idxTip <;> simp

/-- If a call emits an event, it sets lastSwipeTime to the now of that call, and
the cooldown had elapsed relative to the pre-call lastSwipeTime. -/
theorem processResults_fire (sq : ℚ → ℚ) (results : HandsResults) (b : Bool)
    (now : ℤ) (s : ExtractorState) (d : GestureDirection)
    (h : (processResults sq results b now s).event = some d) :
    (processResults sq results b now s).state.lastSwipeTime = now ∧
    SWIPE_COOLDOWN < now - s.lastSwipeTime := by
  cases b with
  | false => rw [processResults_notRunning] at h; simp at h
  | true =>
    rcases results with _ | (_ | ⟨l, rest⟩)
    · rw [processResults_noHand sq none now s rfl] at h; simp at h
    · rw [processResults_noHand sq (some []) now s rfl] at h; simp at h
    · rcases h0 : l[0]? with _ | wrist
      · rw [processResults_crash_wrist _ _ _ _ _ h0] at h; simp at h
      · rw [processResults_detected_event sq l rest now s wrist h0] at h
        have hf := swipeCheck_fire (1 - wrist.x) now { s with handDetected := true } d h
        rw [processResults_detected_lastSwipeTime sq l rest now s wrist h0]
        exact ⟨hf.1, hf.2⟩

/-- If a call emits no event, lastSwipeTime is unchanged. -/
theorem processResults_nofire (sq : ℚ → ℚ) (results : HandsResults) (b : Bool)
    (now : ℤ) (s : ExtractorState)
    (h : (processResults sq results b now s).event = none) :
    (processResults sq results b now s).state.lastSwipeTime = s.lastSwipeTime := by
  cases b with
  | false => rw [processResults_notRunning]
  | true =>
    rcases results with _ | (_ | ⟨l, rest⟩)
    · rw [processResults_noHand sq none now s rfl]
    · rw [processResults_noHand sq (some []) now s rfl]
    · rcases h0 : l[0]? with _ | wrist
      · rw [processResults_crash_wrist _ _ _ _ _ h0]
      · rw [processResults_detected_event sq l rest now s wrist h0] at h
        rw [processResults_detected_lastSwipeTime sq l rest now s wrist h0]
        exact swipeCheck_nofire (1 - wrist.x) now { s with handDetected := true } h

/-- Every event in a trace is more than the cooldown after the starting
lastSwipeTime, and consecutive (hence all) trace events are more than the
cooldown apart. -/
theorem traceEvents_gaps (sq : ℚ → ℚ) :
    ∀ (inputs : List CallInput) (s : ExtractorState),
      (∀ x ∈ traceEvents sq inputs s, SWIPE_COOLDOWN < x.1 - s.lastSwipeTime) ∧
      List.Pairwise (fun a b : ℤ × GestureDirection => SWIPE_COOLDOWN < b.1 - a.1)
        (traceEvents sq inputs s) := by
  intro inputs
  induction inputs with
  | nil => intro s; exact ⟨by simp [traceEvents], by simp [traceEvents]⟩
  | cons c rest ih =>
    intro s
    rcases hv : (processResults sq c.results c.isRunning c.now s).event with _ | d
    · have hte : traceEvents sq (c :: rest) s =
          traceEvents sq rest (processResults sq c.results c.isRunning c.now s).state := by
        simp [traceEvents, hv]
      have hlst := processResults_nofire sq c.results c.isRunning c.now s hv
      obtain ⟨iha, ihb⟩ := ih (processResults sq c.results c.isRunning c.now s).state
      refine ⟨?_, ?_⟩
      · intro x hx
        rw [hte] at hx
        have hgt := iha x hx
        rw [hlst] at hgt
        exact hgt
      · rw [hte]; exact ihb
    · have hte : traceEvents sq (c :: rest) s =
          (c.now, d) ::
            traceEvents sq rest (processResults sq c.results c.isRunning c.now s).state := by
        simp [traceEvents, hv]
      have hfe := processResults_fire sq c.results c.isRunning c.now s d hv
      obtain ⟨iha, ihb⟩ := ih (processResults sq c.results c.isRunning c.now s).state
      refine ⟨?_, ?_⟩
      · intro x hx
        rw [hte] at hx
        rcases List.mem_cons.mp hx with hx1 | hx2
        · subst hx1
          exact hfe.2
        · have h3 := iha x hx2
          rw [hfe.1] at h3
          have h4 := hfe.2
          unfold SWIPE_COOLDOWN at h3 h4 ⊢
          omega
      · rw [hte]
        refine List.Pairwise.cons ?_ ihb
        intro y hy
        have h3 := iha y hy
        rw [hfe.1] at h3
        exact h3

/-- C4: over any call sequence from the default state, any two fired
shape-navigation events are separated by strictly more than the 800 ms
cooldown; and in a concrete synthetic sequence whose inverted wrist x
crosses the threshold twice within 800 ms (at t = 1000 and t = 1400),
exactly one event fires. -/
theorem c4_swipe_debounce :
    (∀ (sq : ℚ → ℚ) (inputs : List CallInput),
      List.Pairwise (fun a b : ℤ × GestureDirection => SWIPE_COOLDOWN < b.1 - a.1)
        (traceEvents sq inputs initState)) ∧
    traceEvents sqrtAtZero
      [⟨some [List.replicate 9 ⟨1/2, 0, 0⟩], true, 900⟩,
        ⟨some [List.replicate 9 ⟨2/5, 0, 0⟩], true, 1000⟩,
        ⟨some [List.replicate 9 ⟨3/10, 0, 0⟩], true, 1400⟩] initState =
      [(1000, GestureDirection.next)] := by
  constructor
  · intro sq inputs
    exact (traceEvents_gaps sq inputs initState).2
  · norm_num [traceEvents, processResults, swipeCheck, calculateDistance,
      normalizePinchDistance, initState, sqrtAtZero, List.replicate,
      SWIPE_COOLDOWN, SWIPE_THRESHOLD, PINCH_MIN_DISTANCE, PINCH_SCALE_FACTOR,
      PINCH_MAX_VALUE, HAND_X_LERP, PINCH_LERP_ACTIVE, PINCH_LERP_INACTIVE]

/-- The pinch relaxation recurrence in affine form. -/
theorem relaxIter_pinch (sq : ℚ → ℚ) :
    ∀ (n : ℕ) (s : ExtractorState),
      (relaxIter sq n s).pinchDistance - 1 =
        (1 - PINCH_LERP_INACTIVE) ^ n * (s.pinchDistance - 1) := by
  intro n
  induction n with
  | zero => intro s; simp [relaxIter]
  | succ k ih =>
    intro s
    rw [relaxIter, ih]
    rw [processResults_noHand sq none 0 s rfl]
    dsimp only
    rw [PINCH_LERP_INACTIVE]
    ring

/-- C7: on each no-hand call, the distance of pinchOpenness from 1.0 shrinks
by exactly the factor 1 − 0.05 (strictly decreasing whenever it is nonzero),
and under repeated no-hand calls it tends to 0: for every ε > 0 it is
eventually below ε. -/
theorem c7_idle_relaxation :
    ∀ (sq : ℚ → ℚ) (s : ExtractorState),
      0 ≤ s.pinchDistance → s.pinchDistance ≤ PINCH_MAX_VALUE →
      s.pinchDistance ≠ 1 →
      (|(processResults sq none true 0 s).state.pinchDistance - 1| =
          (1 - PINCH_LERP_INACTIVE) * |s.pinchDistance - 1| ∧
        |(processResults sq none true 0 s).state.pinchDistance - 1| <
          |s.pinchDistance - 1|) ∧
      (∀ ε : ℚ, 0 < ε → ∃ N : ℕ, ∀ n : ℕ, N ≤ n →
        |(relaxIter sq n s).pinchDistance - 1| < ε) := by
  intro sq s h0 h1 hne
  have habs : ∀ n : ℕ, |(relaxIter sq n s).pinchDistance - 1| =
      (1 - PINCH_LERP_INACTIVE) ^ n * |s.pinchDistance - 1| := by
    intro n
    rw [relaxIter_pinch sq n s, abs_mul, abs_pow, PINCH_LERP_INACTIVE,
      abs_of_nonneg (show (0 : ℚ) ≤ 1 - 1/20 by norm_num)]
  have hstep : (relaxIter sq 1 s).pinchDistance =
      (processResults sq none true 0 s).state.pinchDistance := rfl
  have hpos : 0 < |s.pinchDistance - 1| :=
    abs_pos.mpr (sub_ne_zero.mpr hne)
  constructor
  · constructor
    · have := habs 1
      rw [hstep] at this
      rw [this, pow_one]
    · have := habs 1
      rw [hstep] at this
      rw [this, pow_one, PINCH_LERP_INACTIVE]
      nlinarith [hpos]
  · intro ε hε
    rw [PINCH_MAX_VALUE] at h1
    have hC : |s.pinchDistance - 1| ≤ 1 := abs_le.mpr ⟨by linarith, by linarith⟩
    obtain ⟨N, hN⟩ := exists_pow_lt_of_lt_one hε
      (show (1 - PINCH_LERP_INACTIVE : ℚ) < 1 by rw [PINCH_LERP_INACTIVE]; norm_num)
    refine ⟨N, fun n hn => ?_⟩
    rw [habs n]
    have hq0 : (0 : ℚ) ≤ 1 - PINCH_LERP_INACTIVE := by
      rw [PINCH_LERP_INACTIVE]; norm_num
    have hq1 : (1 - PINCH_LERP_INACTIVE : ℚ) ≤ 1 := by
      rw [PINCH_LERP_INACTIVE]; norm_num
    calc (1 - PINCH_LERP_INACTIVE) ^ n * |s.pinchDistance - 1| ≤
          (1 - PINCH_LERP_INACTIVE) ^ n * 1 := by
            exact mul_le_mul_of_nonneg_left hC (pow_nonneg hq0 n)
      _ = (1 - PINCH_LERP_INACTIVE) ^ n := mul_one _
      _ ≤ (1 - PINCH_LERP_INACTIVE) ^ N := pow_le_pow_of_le_one hq0 hq1 hn
      _ < ε := hN

/-- Witness for C7, starting from pinchOpenness = 0 (fully pinched). -/
theorem c7_idle_relaxation_witness :
    (|(processResults sqrtAtZero none true 0
          { initState with pinchDistance := 0 }).state.pinchDistance - 1| =
        (1 - PINCH_LERP_INACTIVE) *
          |({ initState with pinchDistance := 0 } : ExtractorState).pinchDistance - 1| ∧
      |(processResults sqrtAtZero none true 0
          { initState with pinchDistance := 0 }).state.pinchDistance - 1| <
        |({ initState with pinchDistance := 0 } : ExtractorState).pinchDistance - 1|) ∧
    (∀ ε : ℚ, 0 < ε → ∃ N : ℕ, ∀ n : ℕ, N ≤ n →
      |(relaxIter sqrtAtZero n { initState with pinchDistance := 0 }).pinchDistance - 1|
        < ε) :=
  c7_idle_relaxation sqrtAtZero { initState with pinchDistance := 0 }
    (by norm_num) (by rw [PINCH_MAX_VALUE]; norm_num) (by norm_num)

/-- C6: generatePositions returns exactly count (x, y, z) triples for every
shape and count > 0, and never fails (it is a total function); moreover, if
the sin/cos oracle satisfies the Pythagorean identity (as the real functions
do), every Sphere point has squared distance exactly 6² from the origin. -/
theorem c6_generator_contract :
    ∀ (m : MathOps) (rand : ℕ → ℚ) (ty : ShapeType) (count : ℕ),
      0 < count →
      (generatePositions m rand ty count).length = count ∧
      ((∀ t : ℚ, m.sin t ^ 2 + m.cos t ^ 2 = 1) →
        ∀ p ∈ generatePositions m rand ShapeType.sphere count,
          p.1 ^ 2 + p.2.1 ^ 2 + p.2.2 ^ 2 = 6 ^ 2) := by
  intro m rand ty count hc
  constructor
  · simp [generatePositions]
  · intro hpyth p hp
    simp only [generatePositions, List.mem_map] at hp
    obtain ⟨i, hi, hpe⟩ := hp
    subst hpe
    simp only [genPoint]
    have h1 := hpyth (rand (2 * i) * m.pi * 2)
    have h2 := hpyth (m.acos (2 * rand (2 * i + 1) - 1))
    linear_combination (36 * m.sin (m.acos (2 * rand (2 * i + 1) - 1)) ^ 2) * h1 +
      36 * h2

/-- Witness for C6: the sphere generator at count = 2, with the trivial
Pythagorean oracle sin = 0, cos = 1. -/
theorem c6_generator_contract_witness :
    (generatePositions ⟨fun _ => 0, fun _ => 1, fun _ => 0, 0⟩ (fun _ => 0)
        ShapeType.sphere 2).length = 2 ∧
    (∀ p ∈ generatePositions ⟨fun _ => 0, fun _ => 1, fun _ => 0, 0⟩ (fun _ => 0)
        ShapeType.sphere 2, p.1 ^ 2 + p.2.1 ^ 2 + p.2.2 ^ 2 = 6 ^ 2) :=
  ⟨(c6_generator_contract ⟨fun _ => 0, fun _ => 1, fun _ => 0, 0⟩ (fun _ => 0)
      ShapeType.sphere 2 (by norm_num)).1,
    (c6_generator_contract ⟨fun _ => 0, fun _ => 1, fun _ => 0, 0⟩ (fun _ => 0)
      ShapeType.sphere 2 (by norm_num)).2 (fun t => by norm_num)⟩

end NeuralParticles
